import Mathlib

/-!
Verification of the `env.rs` binding layer of napi-rs (tagged object store,
external-memory accounting, buffer finalize hints, bigint creation, symbol
creation, and the tokio-future submission path), shallowly embedded in Lean.

Rust `TypeId`s are modelled as natural numbers, native payload values as
natural numbers, and raw host handles as natural numbers.  Fallible
operations return `Except Error α`, mirroring `Result<T>` in the source.
-/

namespace Napi

/-- Status codes of the binding layer's error taxonomy (`Status` in the crate);
only the constructors exercised by the claims are listed. -/
inductive Status where
  | Ok
  | InvalidArg
  | GenericFailure
  | QueueFull
  | Closing
  | PendingException
deriving DecidableEq, Repr

/-- Typed error of the layer (`Error { status, reason }` in the source). -/
structure Error where
  status : Status
  reason : String
deriving DecidableEq, Repr

/-- Mirror of the crate's `Result<T> = std::result::Result<T, Error>`. -/
abbrev NapiResult (α : Type) := Except Error α

/-- Mirror of the `check_status!` macro: a non-`Ok` boundary status becomes a
typed `Error` carrying that status. -/
def check_status (s : Status) : NapiResult Unit :=
  if s = Status.Ok then Except.ok () else Except.error ⟨s, "boundary call failed"⟩

/-- Modelled from the spec: `TaggedObject<T>` lives in the crate's `js_values`
module, which is not part of the sources under verification.  Per §3 it is "a
heap allocation holding an optional native value of type T plus a type
identifier"; `env.rs` reads the identifier first and the optional payload
second, which fixes this layout. -/
structure TaggedObject where
  type_id : Nat
  object : Option Nat
deriving DecidableEq, Repr

/-- Modelled from the spec: `TaggedObject::new(value)` (crate `js_values`,
not under the verified sources) stores the type identifier of `T` together
with `Some(value)`. -/
def TaggedObject.new (tid : Nat) (v : Nat) : TaggedObject :=
  ⟨tid, some v⟩

/-- State of a host object's wrap slot: `none` when nothing was ever attached
by `napi_wrap`, `some` the tagged allocation otherwise. -/
abbrev WrapSlot := Option TaggedObject

/-- Result of `Env::wrap`: the slot now holding the tagged allocation, plus
the finalize hint registered alongside `raw_finalize::<T>` — `wrap` passes
`ptr::null_mut()`, i.e. no hint (`none`). -/
structure WrappedObject where
  slot : WrapSlot
  registered_hint : Option (Option Int)
deriving DecidableEq, Repr

/-- Mirror of `Env::wrap` (env.rs:576): boxes `TaggedObject::new(native_object)`,
attaches it on the host object via `napi_wrap`, and registers
`raw_finalize::<T>` with a null finalize hint. -/
def Env.wrap (tid : Nat) (v : Nat) : WrappedObject :=
  ⟨some (TaggedObject.new tid v), none⟩

/-- Mirror of `Env::unwrap::<T>` (env.rs:590): reads the attached pointer via
`napi_unwrap`, compares the stored type identifier against `T`, and only on a
match inspects the optional payload.  Returns the (unchanged) slot alongside
the result; the source never writes through the pointer here. -/
def Env.unwrap (t : Nat) (slot : WrapSlot) : NapiResult Nat × WrapSlot :=
  match slot with
  | none => (Except.error ⟨Status.InvalidArg, "boundary call failed"⟩, none)
  | some tobj =>
    if tobj.type_id = t then
      match tobj.object with
      | some v => (Except.ok v, some tobj)
      | none =>
        (Except.error ⟨Status.InvalidArg, "Invalid argument, nothing attach to js_object"⟩,
          some tobj)
    else
      (Except.error
        ⟨Status.InvalidArg, "Invalid argument, T on unrwap is not the type of wrapped object"⟩,
        some tobj)

/-- Mirror of `Env::drop_wrapped::<T>` (env.rs:616): on a tag match clears the payload
in place (`(*tagged_object).object = None`), leaving the allocation attached;
on a mismatch returns `InvalidArg` and touches nothing.  The trailing `Nat`
counts how many times the native value's destructor ran during this call
(assigning `None` over `Some(v)` drops `v`). -/
def Env.drop_wrapped (t : Nat) (slot : WrapSlot) : NapiResult Unit × WrapSlot × Nat :=
  match slot with
  | none => (Except.error ⟨Status.InvalidArg, "boundary call failed"⟩, none, 0)
  | some tobj =>
    if tobj.type_id = t then
      (Except.ok (), some ⟨tobj.type_id, none⟩, if tobj.object.isSome then 1 else 0)
    else
      (Except.error
        ⟨Status.InvalidArg,
          "Invalid argument, T on drop_wrapped is not the type of wrapped object"⟩,
        some tobj, 0)

end Napi

namespace Napi

/-- Host-side external-memory accounting: the running counter together with
the ordered log of every adjustment reported through
`napi_adjust_external_memory`. -/
structure Host where
  mem : Int
  log : List Int
deriving DecidableEq, Repr

/-- One `napi_adjust_external_memory(env, delta, _)` boundary call. -/
def Host.adjust (h : Host) (delta : Int) : Host :=
  ⟨h.mem + delta, h.log ++ [delta]⟩

/-- Observable effect of one finalizer invocation: whether the tagged
allocation itself was freed, and how many times the native value's destructor
ran. -/
structure FinalizeEffect where
  allocation_freed : Bool
  value_destructor_runs : Nat
deriving DecidableEq, Repr

/-- Mirror of `raw_finalize::<T>` (env.rs:1061): reconstructs the box from the raw
pointer and drops it — freeing the allocation and running `T`'s destructor
exactly when the optional payload is still present — then, if the finalize
hint pointer is non-null (`some`), reads the boxed `Option<i64>` and, when it
is `Some(changed)`, adjusts external memory by `-changed`. -/
def raw_finalize (tobj : TaggedObject) (finalize_hint : Option (Option Int)) (h : Host) :
    FinalizeEffect × Host :=
  let eff : FinalizeEffect := ⟨true, if tobj.object.isSome then 1 else 0⟩
  match finalize_hint with
  | none => (eff, h)
  | some sh =>
    match sh with
    | some changed => (eff, h.adjust (-changed))
    | none => (eff, h)

/-- Host-visible external value: the tagged allocation handed to
`napi_create_external` together with the boxed `Option<i64>` size hint that
was registered as the finalize hint (that box is always allocated, so the
finalize hint pointer of an external is never null). -/
structure JsExternalObj where
  tagged : TaggedObject
  size_hint : Option Int
deriving DecidableEq, Repr

/-- Mirror of `Env::create_external` (env.rs:696): boxes
`TaggedObject::new(native_object)` with `raw_finalize::<T>` and the boxed
size hint, then — only when `size_hint` is `Some(changed)` — makes one
`napi_adjust_external_memory(env, changed, _)` call. -/
def Env.create_external (tid : Nat) (v : Nat) (size_hint : Option Int) (h : Host) :
    JsExternalObj × Host :=
  let obj : JsExternalObj := ⟨TaggedObject.new tid v, size_hint⟩
  match size_hint with
  | some changed => (obj, h.adjust changed)
  | none => (obj, h)

/-- Mirror of `Env::get_value_external::<T>` (env.rs:718): reads the external pointer
via `napi_get_value_external`, checks the stored type identifier against `T`,
and only on a match inspects the optional payload; no path writes to the
tagged object, so the external is returned unchanged. -/
def Env.get_value_external (t : Nat) (o : JsExternalObj) : NapiResult Nat × JsExternalObj :=
  if o.tagged.type_id = t then
    match o.tagged.object with
    | some v => (Except.ok v, o)
    | none => (Except.error ⟨Status.InvalidArg, "nothing attach to js_external"⟩, o)
  else
    (Except.error
      ⟨Status.InvalidArg, "T on get_value_external is not the type of wrapped object"⟩, o)

/-- Rust `Vec<u8>` as handed to the buffer creation paths: its bytes plus its
allocation capacity (the raw parts `ptr`/`len`/`cap`, with `len` implicit as
`data.length`). -/
structure RustVec where
  data : List Nat
  cap : Nat
deriving DecidableEq, Repr

/-- Payload of the opaque finalize hint built by `create_buffer_with_data` /
`create_arraybuffer_with_data`: `Box::into_raw(Box::new((length, capacity)))`,
modelled as the two `usize` words behind the opaque pointer, in field order. -/
def packBufferHint (length cap : Nat) : List Nat :=
  [length, cap]

/-- Reading the opaque hint back as `*mut (usize, usize)` in `drop_buffer`:
recovers the `(length, capacity)` pair; any other shape would be undefined
behaviour in the source and is mapped to `none`. -/
def readBufferHint : List Nat → Option (Nat × Nat)
  | [length, cap] => some (length, cap)
  | _ => none

/-- Host-visible external buffer produced by `napi_create_external_buffer`:
the exposed length, the bytes behind the (uncopied) data pointer, and the
opaque finalize hint registered with `drop_buffer`. -/
structure JsBufferObj where
  len : Nat
  data_ptr : List Nat
  finalize_hint : List Nat
deriving DecidableEq, Repr

/-- Mirror of `Env::create_buffer_with_data` (env.rs:292): transfers the vector's
allocation to the host without copying via `napi_create_external_buffer`,
registering `drop_buffer` with the boxed `(length, capacity)` hint.
The `+length` accounting adjustment is Modelled from the spec: it happens
inside the host's `napi_create_external_buffer` boundary call (the source's
own doc on `adjust_external_memory` states these "with-data" paths already
perform the adjustment internally). -/
def Env.create_buffer_with_data (v : RustVec) (h : Host) : JsBufferObj × Host :=
  let length := v.data.length
  (⟨length, v.data, packBufferHint length v.cap⟩, h.adjust (length : Int))

/-- Mirror of `Env::create_arraybuffer_with_data` (env.rs:400): transfers the
vector's allocation to the host without copying via
`napi_create_external_arraybuffer`, registering the same `drop_buffer`
finalizer with the same boxed `(length, capacity)` hint as the buffer path;
the `+length` accounting adjustment likewise happens inside the host's
boundary call (Modelled from the spec, exactly as for
`create_buffer_with_data`). -/
def Env.create_arraybuffer_with_data (v : RustVec) (h : Host) : JsBufferObj × Host :=
  let length := v.data.length
  (⟨length, v.data, packBufferHint length v.cap⟩, h.adjust (length : Int))

/-- Mirror of `drop_buffer` (env.rs:1051): reboxes the hint as `(usize, usize)` and
reconstructs `Vec::from_raw_parts(data, length, cap)` so the original
allocation is dropped; returns the reconstructed vector (what gets freed). -/
def drop_buffer (finalize_data : List Nat) (hint : List Nat) : Option RustVec :=
  match readBufferHint hint with
  | some lc => some ⟨finalize_data.take lc.1, lc.2⟩
  | none => none

/-- Modelled from the spec: the host's release of an external buffer (§4.3,
§4.5) invokes the registered native finalizer (`drop_buffer`) exactly once
and reverses the external-memory accounting adjustment made at creation,
reporting the negated size. -/
def hostReleaseExternalBuffer (b : JsBufferObj) (h : Host) : Option RustVec × Host :=
  (drop_buffer b.data_ptr b.finalize_hint, h.adjust (-(b.len : Int)))

/-- Host big integer as handed to `napi_create_bigint_words`: a sign bit and
little-endian 64-bit magnitude words. -/
structure JsBigintWords where
  sign_bit : Bool
  words : List Nat
deriving DecidableEq, Repr

/-- Magnitude encoded by little-endian 64-bit words (each word is a `u64`,
so values below `2^64` by construction on every call site). -/
def wordsValue : List Nat → Nat
  | [] => 0
  | w :: ws => w + 2 ^ 64 * wordsValue ws

/-- Modelled from the spec: the mathematical value the host assigns to a big
integer built from a sign bit plus little-endian 64-bit words (§4.3: "sign
bit + little-endian 64-bit words ... zero words represents zero with either
sign"). -/
def JsBigintWords.value (b : JsBigintWords) : Int :=
  (if b.sign_bit then -1 else 1) * (wordsValue b.words : Int)

/-- Two's-complement bit pattern of an `i128` value, as the 128-bit unsigned
number stored in the value's memory. -/
def i128Pattern (v : Int) : Nat :=
  (v % (2 : Int) ^ 128).toNat

/-- Mirror of `Env::create_bigint_from_i128` (env.rs:132): sets the sign bit to
`if value > 0 { 0 } else { 1 }` and passes the value's own memory —
its two's-complement bit pattern — as the two little-endian 64-bit words. -/
def Env.create_bigint_from_i128 (v : Int) : JsBigintWords :=
  { sign_bit := if v > 0 then false else true
    words := [i128Pattern v % 2 ^ 64, i128Pattern v / 2 ^ 64] }

/-- Mirror of `Env::create_bigint_from_words` (env.rs:156): passes the caller's sign
bit and word vector through to `napi_create_bigint_words` unchanged. -/
def Env.create_bigint_from_words (sign_bit : Bool) (words : List Nat) : JsBigintWords :=
  ⟨sign_bit, words⟩

/-- Mirror of `Env::create_symbol` (env.rs:232): builds the optional description value
by calling `create_string` and discarding its error through `.ok()`
(`description.and_then(|d| self.create_string(d).ok())`), then hands the
resulting raw value — or null — to the `napi_create_symbol` boundary call.
The two boundary calls are supplied as oracles. -/
def Env.create_symbol (description : Option String)
    (create_string : String → NapiResult Nat)
    (napi_create_symbol : Option Nat → NapiResult Nat) : NapiResult Nat :=
  napi_create_symbol (description.bind fun desc => (create_string desc).toOption)

/-- Modelled from the spec: the bounded tokio mpsc channel behind the
future-submission path (§4.6): a maximum queue size, a current occupancy, and
whether the receiving end has been torn down. -/
structure TokioQueue where
  capacity : Nat
  queued : Nat
  receiver_closed : Bool
deriving DecidableEq, Repr

/-- Modelled from the spec: the two failure modes of `try_send` on the
bounded channel (§4.6: "enqueue fails fast with a Full error when the bound
is exceeded, and with a Closing error if the host side has already torn down
the queue's receiving end"). -/
inductive TrySendError where
  | full
  | closed
deriving DecidableEq, Repr

/-- Modelled from the spec: non-blocking enqueue on the bounded channel;
fails with `closed` once the receiver is gone, with `full` at capacity, and
otherwise enqueues. -/
def trySend (q : TokioQueue) : Except TrySendError TokioQueue :=
  if q.receiver_closed then Except.error TrySendError.closed
  else if q.capacity ≤ q.queued then Except.error TrySendError.full
  else Except.ok { q with queued := q.queued + 1 }

/-- Mirror of `Env::execute_tokio_future` (env.rs:856): creates a promise
(`napi_create_promise`), builds and starts the `FuturePromise` (both fallible,
supplied as oracles), then `try_send`s the boxed future onto the tokio queue,
mapping `TrySendError::Full` to a `QueueFull` error and `TrySendError::Closed`
to a `Closing` error; on success returns the raw promise handle.  Every
failure is a returned `Except.error`, never a termination. -/
def Env.execute_tokio_future (create_promise_status : Status)
    (future_promise_create : NapiResult Unit) (future_promise_start : NapiResult Unit)
    (raw_promise : Nat) (q : TokioQueue) : NapiResult (Nat × TokioQueue) :=
  match check_status create_promise_status with
  | Except.error e => Except.error e
  | Except.ok _ =>
    match future_promise_create with
    | Except.error e => Except.error e
    | Except.ok _ =>
      match future_promise_start with
      | Except.error e => Except.error e
      | Except.ok _ =>
        match trySend q with
        | Except.error TrySendError.full =>
          Except.error ⟨Status.QueueFull, "Failed to run future: no available capacity"⟩
        | Except.error TrySendError.closed =>
          Except.error ⟨Status.Closing, "Failed to run future: receiver closed"⟩
        | Except.ok q2 => Except.ok (raw_promise, q2)

end Napi

namespace Napi

/-- Spec claim C1: `wrap` then `unwrap::<T>` with the same `T` returns the
original value, and `unwrap::<U>` with a mismatched tag fails with
`InvalidArg` without dereferencing the payload: for every payload `p` the
result is the same mismatch error and the slot is untouched, so the outcome
is independent of the stored payload. -/
theorem wrap_unwrap_tag_discipline (t u v : Nat) (hne : u ≠ t) :
    Env.unwrap t (Env.wrap t v).slot = (Except.ok v, some (TaggedObject.new t v)) ∧
    ∀ p : Option Nat,
      Env.unwrap u (some ⟨t, p⟩) =
        (Except.error
          ⟨Status.InvalidArg,
            "Invalid argument, T on unrwap is not the type of wrapped object"⟩,
          some ⟨t, p⟩) := by
  constructor
  · simp [Env.wrap, Env.unwrap, TaggedObject.new]
  · intro p
    have hne2 : t ≠ u := fun h => hne h.symm
    simp [Env.unwrap, hne2]

/-- Witness for C1 at `t = 0`, `u = 1`, `v = 7`. -/
theorem wrap_unwrap_tag_discipline_witness :
    (1 : Nat) ≠ 0 ∧
      Env.unwrap 0 (Env.wrap 0 7).slot = (Except.ok 7, some (TaggedObject.new 0 7)) :=
  ⟨by decide, (wrap_unwrap_tag_discipline 0 1 7 (by decide)).1⟩

/-- Spec claim C2: after `wrap` then a successful `drop_wrapped::<T>` — which
clears the payload in place, running the value's destructor that one time —
a subsequent `unwrap::<T>` fails with `InvalidArg` ("nothing attach"), and the
host-driven `raw_finalize` invocation (with the null hint `wrap` registered)
still completes: it frees the allocation but runs no value destructor and makes
no accounting adjustment, so the value is destroyed exactly once over the whole
lifetime (no double-free). -/
theorem drop_wrapped_then_unwrap_and_finalize (t v : Nat) (h0 : Host) :
    Env.drop_wrapped t (Env.wrap t v).slot =
      (Except.ok (), some (⟨t, none⟩ : TaggedObject), 1) ∧
    (Env.unwrap t (some (⟨t, none⟩ : TaggedObject))).1 =
      Except.error ⟨Status.InvalidArg, "Invalid argument, nothing attach to js_object"⟩ ∧
    raw_finalize ⟨t, none⟩ (Env.wrap t v).registered_hint h0 =
      (⟨true, 0⟩, h0) ∧
    (Env.drop_wrapped t (Env.wrap t v).slot).2.2 +
      (raw_finalize ⟨t, none⟩ (Env.wrap t v).registered_hint h0).1.value_destructor_runs = 1 := by
  refine ⟨?_, ?_, ?_, ?_⟩ <;>
    simp [Env.wrap, Env.drop_wrapped, Env.unwrap, TaggedObject.new, raw_finalize]

/-- Spec claim C10: a failed downcast never mutates the tagged object.
`unwrap` and `get_value_external` return the slot unchanged on every path
(the source only reads through the pointer), and `drop_wrapped` on a tag
mismatch fails with `InvalidArg` leaving tag, payload and destructor count
untouched. -/
theorem failed_downcast_preserves_state (t : Nat) (tobj : TaggedObject) (o : JsExternalObj)
    (hmis : tobj.type_id ≠ t) :
    (Env.unwrap t (some tobj)).2 = some tobj ∧
    (Env.get_value_external t o).2 = o ∧
    Env.drop_wrapped t (some tobj) =
      (Except.error
        ⟨Status.InvalidArg,
          "Invalid argument, T on drop_wrapped is not the type of wrapped object"⟩,
        some tobj, 0) := by
  refine ⟨?_, ?_, ?_⟩
  · cases tobj with
    | mk tid p =>
      by_cases hid : tid = t <;> cases p <;> simp [Env.unwrap, hid]
  · cases ho : o.tagged with
    | mk tid p =>
      by_cases hid : tid = t <;> rcases p with _ | pv <;>
        simp [Env.get_value_external, ho, hid]
  · simp [Env.drop_wrapped, hmis]

/-- Witness for C10 at a concrete mismatched downcast: object tagged `0`
holding `5`, downcast to type `1`; external tagged `2` with empty payload. -/
theorem failed_downcast_preserves_state_witness :
    (⟨0, some 5⟩ : TaggedObject).type_id ≠ 1 ∧
      (Env.unwrap 1 (some (⟨0, some 5⟩ : TaggedObject))).2 = some ⟨0, some 5⟩ ∧
      (Env.get_value_external 1 ⟨⟨2, none⟩, some 8⟩).2 = ⟨⟨2, none⟩, some 8⟩ :=
  ⟨by decide,
    (failed_downcast_preserves_state 1 ⟨0, some 5⟩ ⟨⟨2, none⟩, some 8⟩ (by decide)).1,
    (failed_downcast_preserves_state 1 ⟨0, some 5⟩ ⟨⟨2, none⟩, some 8⟩ (by decide)).2.1⟩

/-- Spec claim C4: `create_external` with `Some(hint)` makes exactly one
`+hint` accounting adjustment at creation, and the finalizer registered for
that external (with its boxed `Some(hint)` finalize hint) makes exactly one
`-hint` adjustment, so the adjustment log over the external's lifetime is
`[hint, -hint]` and the net accounting delta is zero. -/
theorem create_external_accounting_net_zero (tid v : Nat) (hint : Int) (h0 : Host) :
    ((Env.create_external tid v (some hint) h0).2).mem = h0.mem + hint ∧
    ((Env.create_external tid v (some hint) h0).2).log = h0.log ++ [hint] ∧
    (raw_finalize ((Env.create_external tid v (some hint) h0).1).tagged
        (some ((Env.create_external tid v (some hint) h0).1).size_hint)
        ((Env.create_external tid v (some hint) h0).2)).2.mem = h0.mem ∧
    (raw_finalize ((Env.create_external tid v (some hint) h0).1).tagged
        (some ((Env.create_external tid v (some hint) h0).1).size_hint)
        ((Env.create_external tid v (some hint) h0).2)).2.log =
      h0.log ++ [hint, -hint] := by
  refine ⟨?_, ?_, ?_, ?_⟩ <;>
    simp [Env.create_external, raw_finalize, Host.adjust, TaggedObject.new]

/-- Spec claim C3: over the full lifetime of a buffer created by either
"with-data" path (`create_buffer_with_data` and
`create_arraybuffer_with_data`) — creation (whose boundary call performs the
`+length` accounting, per the source's own documentation on
`adjust_external_memory`) followed by the host's release (which reverses it)
— the accounting log gains exactly one `+length` entry and exactly one
`-length` entry, and the counter returns to its initial value: never omitted,
never duplicated. -/
theorem buffer_with_data_accounting_paired (v : RustVec) (h0 : Host) :
    (((Env.create_buffer_with_data v h0).2).log = h0.log ++ [(v.data.length : Int)] ∧
     (hostReleaseExternalBuffer (Env.create_buffer_with_data v h0).1
         (Env.create_buffer_with_data v h0).2).2.log =
       h0.log ++ [(v.data.length : Int), -(v.data.length : Int)] ∧
     (hostReleaseExternalBuffer (Env.create_buffer_with_data v h0).1
         (Env.create_buffer_with_data v h0).2).2.mem = h0.mem) ∧
    (((Env.create_arraybuffer_with_data v h0).2).log =
       h0.log ++ [(v.data.length : Int)] ∧
     (hostReleaseExternalBuffer (Env.create_arraybuffer_with_data v h0).1
         (Env.create_arraybuffer_with_data v h0).2).2.log =
       h0.log ++ [(v.data.length : Int), -(v.data.length : Int)] ∧
     (hostReleaseExternalBuffer (Env.create_arraybuffer_with_data v h0).1
         (Env.create_arraybuffer_with_data v h0).2).2.mem = h0.mem) := by
  refine ⟨⟨?_, ?_, ?_⟩, ⟨?_, ?_, ?_⟩⟩ <;>
    simp [Env.create_buffer_with_data, Env.create_arraybuffer_with_data,
      hostReleaseExternalBuffer, Host.adjust]

/-- Spec claim C5: the `(length, capacity)` pair packed into the opaque
finalize hint at creation is recovered exactly at finalization, and
`drop_buffer` reconstructs and drops the original allocation: the vector it
frees has exactly the original bytes (original length) and the original
capacity. -/
theorem buffer_hint_roundtrip (v : RustVec) (h0 : Host) :
    readBufferHint ((Env.create_buffer_with_data v h0).1).finalize_hint =
      some (v.data.length, v.cap) ∧
    drop_buffer ((Env.create_buffer_with_data v h0).1).data_ptr
        ((Env.create_buffer_with_data v h0).1).finalize_hint = some v := by
  constructor
  · simp [Env.create_buffer_with_data, packBufferHint, readBufferHint]
  · simp [Env.create_buffer_with_data, packBufferHint, readBufferHint, drop_buffer,
      List.take_length]

/-- Spec claim C6 fails on the code: `create_bigint_from_i128` passes the
two's-complement bit pattern of the value as magnitude words under a sign
bit, so for the input `-1` the resulting host big integer has mathematical
value `-(2^128 - 1)`, not `-1` — the negative round-trip is not value-exact.
(For positive inputs the sign bit is `0` and the pattern equals the value, so
those are unaffected; the conjunct at `5` records that.) -/
theorem create_bigint_from_i128_negative_divergence :
    (Env.create_bigint_from_i128 (-1)).value = -(2 ^ 128 - 1) ∧
    ((-(2 ^ 128 - 1) : Int) = -1 → False) ∧
    (Env.create_bigint_from_i128 5).value = 5 := by
  refine ⟨?_, by norm_num, ?_⟩ <;>
    · simp only [Env.create_bigint_from_i128, JsBigintWords.value, wordsValue, i128Pattern]
      norm_num

/-- Spec claim C7: `create_bigint_from_words` with words `[1, 0]` and sign
bit false yields the host value `1`, and with words `[0, 0]` and sign bit
true yields `0` (a sign bit over a zero magnitude does not affect the
value). -/
theorem create_bigint_from_words_scenarios :
    (Env.create_bigint_from_words false [1, 0]).value = 1 ∧
    (Env.create_bigint_from_words true [0, 0]).value = 0 := by
  constructor <;> simp [Env.create_bigint_from_words, JsBigintWords.value, wordsValue]

/-- Spec claim C8 fails on the code: with a failing inner `create_string`
boundary call and a succeeding `napi_create_symbol` call,
`create_symbol(Some("desc"))` returns `Ok` — the `.ok()` in the source
silently discards the string-creation error and proceeds with a null
description, instead of returning that error as the claim states. -/
theorem create_symbol_swallows_string_error :
    Env.create_symbol (some "desc")
        (fun _ => Except.error ⟨Status.GenericFailure, "string creation failed"⟩)
        (fun _ => Except.ok 42) = Except.ok 42 ∧
    (Except.ok 42 : NapiResult Nat) ≠
      Except.error ⟨Status.GenericFailure, "string creation failed"⟩ :=
  ⟨rfl, by simp⟩

/-- Amended claim C8: when the internal string-creation call inside
`create_symbol(Some(description))` fails, `create_symbol` silently falls back
to an absent (null) description and returns exactly what the symbol-creation
boundary call yields for it; errors of the symbol-creation call itself are
propagated unchanged. -/
theorem create_symbol_fallback_behavior (d : String) (e : Error)
    (create_string : String → NapiResult Nat) (mk_symbol : Option Nat → NapiResult Nat)
    (hfail : create_string d = Except.error e) :
    Env.create_symbol (some d) create_string mk_symbol = mk_symbol none ∧
    ∀ e2 : Error, mk_symbol none = Except.error e2 →
      Env.create_symbol (some d) create_string mk_symbol = Except.error e2 := by
  have hmain : Env.create_symbol (some d) create_string mk_symbol = mk_symbol none := by
    simp [Env.create_symbol, hfail, Except.toOption]
  exact ⟨hmain, fun e2 h2 => hmain.trans h2⟩

/-- Witness for the amended C8 at a concrete failing string creation. -/
theorem create_symbol_fallback_behavior_witness :
    ((fun _ : String =>
        (Except.error ⟨Status.GenericFailure, "boom"⟩ : NapiResult Nat)) "x" =
      Except.error ⟨Status.GenericFailure, "boom"⟩) ∧
    Env.create_symbol (some "x")
        (fun _ => Except.error ⟨Status.GenericFailure, "boom"⟩)
        (fun o => Except.ok (if o.isSome then 1 else 0)) =
      (fun o : Option Nat => (Except.ok (if o.isSome then 1 else 0) : NapiResult Nat)) none :=
  ⟨rfl,
    (create_symbol_fallback_behavior "x" ⟨Status.GenericFailure, "boom"⟩
      (fun _ => Except.error ⟨Status.GenericFailure, "boom"⟩)
      (fun o => Except.ok (if o.isSome then 1 else 0)) rfl).1⟩

/-- Spec claim C9: with the preceding boundary steps succeeding,
`execute_tokio_future` returns a `Closing`-status error once the queue's
receiving end is torn down, and a `QueueFull`-status error when the queue is
at capacity (and not closed); both are ordinary `Except.error` results handed
back to the caller, never terminations. -/
theorem execute_tokio_future_queue_errors (fc fs : NapiResult Unit) (rp : Nat)
    (q : TokioQueue) (hfc : fc = Except.ok ()) (hfs : fs = Except.ok ()) :
    (q.receiver_closed = true →
      Env.execute_tokio_future Status.Ok fc fs rp q =
        Except.error ⟨Status.Closing, "Failed to run future: receiver closed"⟩) ∧
    (q.receiver_closed = false → q.capacity ≤ q.queued →
      Env.execute_tokio_future Status.Ok fc fs rp q =
        Except.error ⟨Status.QueueFull, "Failed to run future: no available capacity"⟩) := by
  subst hfc hfs
  constructor
  · intro hclosed
    simp [Env.execute_tokio_future, check_status, trySend, hclosed]
  · intro hopen hcap
    simp [Env.execute_tokio_future, check_status, trySend, hopen, hcap]

/-- Witness for C9: a closed queue yields `Closing`; an open zero-capacity
queue yields `QueueFull`. -/
theorem execute_tokio_future_queue_errors_witness :
    Env.execute_tokio_future Status.Ok (Except.ok ()) (Except.ok ()) 3 ⟨1, 0, true⟩ =
      Except.error ⟨Status.Closing, "Failed to run future: receiver closed"⟩ ∧
    Env.execute_tokio_future Status.Ok (Except.ok ()) (Except.ok ()) 3 ⟨0, 0, false⟩ =
      Except.error ⟨Status.QueueFull, "Failed to run future: no available capacity"⟩ :=
  ⟨(execute_tokio_future_queue_errors (Except.ok ()) (Except.ok ()) 3 ⟨1, 0, true⟩
      rfl rfl).1 rfl,
   (execute_tokio_future_queue_errors (Except.ok ()) (Except.ok ()) 3 ⟨0, 0, false⟩
      rfl rfl).2 rfl (by decide)⟩

end Napi
